import Mathlib

/-!
Shallow embedding of `backend/utils/notification.py` (Back2U repository).

Modelling conventions:
* Environment variables (`os.getenv`) are a record of `Option String`
  fields; Python truthiness (`not value`) treats both an unset variable
  and the empty string as missing.
* The database is an oracle record: the `Users` and `Items` tables are
  partial maps, and each fallible database operation (the `SELECT`
  executions and the notification `INSERT`/`commit`) is an oracle field
  saying whether that operation raises and with which message. Handing
  out a cursor (`db.get_cursor`) and closing a cursor or the connection
  are modelled as infallible state events, since the source never
  branches on their failure.
* The SMTP transport (`smtplib.SMTP(...)`, `starttls`, `login`,
  `sendmail`, `quit`) is one oracle: for a recipient it either succeeds
  or raises with an error message.
* `print` diagnostics, the `email_debug.log` audit trail, the
  `crash_debug.log` trace written by `log_debug`, inserted
  `Notifications` rows, and cursor acquire/release events are collected
  in output lists. File appends and `print` are modelled as infallible,
  matching the spec contract that the debug logger never raises.
* A Python exception escaping a region is modelled by an explicit
  `raised`/`Terminal.crashed` value; a function whose every path is
  covered by `try/except` therefore returns `raised := none` on every
  branch.
-/

/-- A row of the `Users` table: `Users(user_id, email, name)`. -/
structure UserRow where
  email : String
  name : String
deriving DecidableEq

/-- A row of the `Items` table: `Items(item_id, reported_by, title)`. -/
structure ItemRow where
  reported_by : Nat
  title : String
deriving DecidableEq

/-- A row inserted into `Notifications(user_id, message, type, status)`. -/
structure NotifRow where
  user_id : Nat
  message : String
  ntype : String
  status : String
deriving DecidableEq

/-- Modelled from the spec: `models/notification_model.py` is not in the
source tree; the spec fixes the notification type used by this workflow
to `EMAIL` (`Notification.TYPES['EMAIL']`). -/
def TYPES_EMAIL : String := "EMAIL"

/-- Modelled from the spec: `models/notification_model.py` is not in the
source tree; the spec fixes the status written by this workflow to
`SENT` (`Notification.STATUSES['SENT']`). -/
def STATUSES_SENT : String := "SENT"

/-- Identifier of a query context (cursor) acquired during a run. -/
inductive CursorId where
  /-- The dictionary cursor opened at the start of the orchestrator's
  read phase. -/
  | main : CursorId
  /-- A `cursor_notif` opened for one notification `INSERT`. -/
  | notif : CursorId
  /-- The cursor `get_user_email` opens for itself when its caller does
  not supply one. -/
  | lookupOwn : Nat → CursorId
deriving DecidableEq

/-- A cursor lifecycle event: `db.get_cursor(...)` or `cursor.close()`. -/
inductive CEvent where
  | acquire : CursorId → CEvent
  | release : CursorId → CEvent
deriving DecidableEq

/-- A line of the `email_debug.log` audit trail written by `send_email`. -/
inductive AuditLine where
  /-- Models the line `f"SUCCESS: Sent to {recipient_email}\n"`. -/
  | sent : String → AuditLine
  /-- Models the line `f"ERROR sending email to {recipient_email}: {e}\n"`;
  the first field is the recipient, the second the error text. -/
  | failed : String → String → AuditLine
deriving DecidableEq

/-- A diagnostic printed to the standard stream (`print(...)`). -/
inductive Diag where
  /-- `f"Warning: User with ID {user_id} not found."` -/
  | userNotFound : Nat → Diag
  /-- `f"Error fetching user {user_id}: {e}"` -/
  | userFetchError : Nat → String → Diag
  /-- `f"Email credentials not configured. Missing: {', '.join(missing)}"` -/
  | missingConfig : List String → Diag
  /-- `f"Would have sent to {recipient_email}: {subject}"` -/
  | wouldHaveSent : String → String → Diag
  /-- `f"ERROR sending email to {recipient_email}: {e}"` printed before the
  audit append. -/
  | sendError : String → String → Diag
  /-- `f"Warning: Item with ID {item_id} not found."` -/
  | itemNotFound : Nat → Diag
  /-- `"Warning: Missing user data for reporter or claimant. Skipping email notifications."` -/
  | missingUserData : Diag
  /-- `f"Error inserting notification: {e}"` -/
  | insertError : String → Diag
  /-- `f"Error in send_claim_resolved_emails (background): {e}"` -/
  | crashDiag : String → Diag
deriving DecidableEq

/-- The mail configuration read from the environment by `send_email`:
`EMAIL_SENDER, EMAIL_HOST, EMAIL_PORT, EMAIL_USER, EMAIL_PASS`, each
`none` when unset. -/
structure Env where
  EMAIL_SENDER : Option String
  EMAIL_HOST : Option String
  EMAIL_PORT : Option String
  EMAIL_USER : Option String
  EMAIL_PASS : Option String

/-- Python truthiness of an environment value: an unset variable and the
empty string are both falsy (`not all([...])`). -/
def truthy : Option String → Bool
  | none => false
  | some s => !s.isEmpty

/-- Database oracle: table contents plus, for each fallible operation,
whether that operation raises and with which message. -/
structure Db where
  /-- `SELECT reported_by, title FROM Items WHERE item_id = %s` result. -/
  items : Nat → Option ItemRow
  /-- `SELECT email, name FROM Users WHERE user_id = %s` result. -/
  users : Nat → Option UserRow
  /-- `some e` when the `Items` SELECT raises exception text `e`. -/
  itemQueryRaises : Option String
  /-- `some e` when the `Users` SELECT for this user id raises `e`. -/
  userQueryRaises : Nat → Option String
  /-- `some e` when the notification `INSERT`/`commit` for this user id
  raises `e`. -/
  insertRaises : Nat → Option String

/-- SMTP transport oracle: for a recipient the connect/starttls/login/
sendmail/quit sequence either succeeds (`none`) or raises with an error
message (`some e`). -/
structure Transport where
  outcome : String → Option String

/-- The full external world of one run. -/
structure World where
  env : Env
  db : Db
  tr : Transport

/-! ## `get_user_email` -/

/-- Observable result of `get_user_email`. -/
structure GetUserOut where
  /-- The returned value: the user row, or `None`. -/
  result : Option UserRow
  /-- Printed diagnostics, in order. -/
  diags : List Diag
  /-- Cursor acquire/release events performed by this call. -/
  events : List CEvent
  /-- `some e` when an exception `e` escapes to the caller. -/
  raised : Option String
deriving DecidableEq

/-- Embedding of `get_user_email(user_id, cursor=None)`.
`borrowedCursor` is true when the caller supplies an already-open cursor
(`cursor is not None`); then `should_close` is false and the function
performs no cursor open/close of its own. Every fallible step is inside
the function's `try`, and the `except` branch returns `None` after
closing the owned cursor, so no path raises. -/
def get_user_email (db : Db) (user_id : Nat) (borrowedCursor : Bool) : GetUserOut :=
  let should_close := !borrowedCursor
  let openEv : List CEvent :=
    if should_close then [CEvent.acquire (CursorId.lookupOwn user_id)] else []
  let closeEv : List CEvent :=
    if should_close then [CEvent.release (CursorId.lookupOwn user_id)] else []
  match db.userQueryRaises user_id with
  | some e =>
      { result := none
        diags := [Diag.userFetchError user_id e]
        events := openEv ++ closeEv
        raised := none }
  | none =>
      match db.users user_id with
      | none =>
          { result := none
            diags := [Diag.userNotFound user_id]
            events := openEv ++ closeEv
            raised := none }
      | some u =>
          { result := some u
            diags := []
            events := openEv ++ closeEv
            raised := none }

/-! ## `send_email` -/

/-- Observable result of `send_email`. -/
structure SendOut where
  /-- The returned boolean. -/
  ok : Bool
  /-- Printed diagnostics, in order. -/
  diags : List Diag
  /-- Lines appended to the `email_debug.log` audit trail, in order. -/
  audit : List AuditLine
  /-- Whether the transport was contacted (any network I/O happened). -/
  network : Bool
  /-- `some e` when an exception `e` escapes to the caller. -/
  raised : Option String
deriving DecidableEq

/-- The list of missing required configuration keys, in the order the
source checks them (`EMAIL_PORT` is optional and not checked). -/
def missingKeys (env : Env) : List String :=
  (if !truthy env.EMAIL_SENDER then ["EMAIL_SENDER"] else [])
    ++ (if !truthy env.EMAIL_HOST then ["EMAIL_HOST"] else [])
    ++ (if !truthy env.EMAIL_USER then ["EMAIL_USER"] else [])
    ++ (if !truthy env.EMAIL_PASS then ["EMAIL_PASS"] else [])

/-- Error text of the `ValueError` raised by `int()` on a non-numeric
port string. -/
def portError (s : String) : String :=
  "invalid literal for int() with base 10: " ++ s

/-- The decimal value of an ASCII digit character, when it is one. -/
def digit? (c : Char) : Option Nat :=
  if 48 ≤ c.toNat ∧ c.toNat ≤ 57 then some (c.toNat - 48) else none

/-- Accumulate the value of a run of decimal digits; `none` at the
first non-digit. -/
def parseNatAux : List Char → Nat → Option Nat
  | [], acc => some acc
  | c :: cs, acc =>
      match digit? c with
      | none => none
      | some d => parseNatAux cs (acc * 10 + d)

/-- Model of Python's `int(s)` on a string: an optional minus sign
followed by at least one decimal digit; `none` when `int()` would raise
`ValueError`. -/
def pyInt? (s : String) : Option Int :=
  match s.data with
  | [] => none
  | '-' :: cs =>
      match cs with
      | [] => none
      | _ => (parseNatAux cs 0).map (fun n => -(n : Int))
  | cs => (parseNatAux cs 0).map (fun n => (n : Int))

/-- The port value `int(os.getenv('EMAIL_PORT', 587))` would produce:
587 when unset, the parsed integer when numeric, `none` when the parse
raises. -/
def portOf (env : Env) : Option Int :=
  match env.EMAIL_PORT with
  | none => some 587
  | some s => pyInt? s

/-- The guarded transport sequence of `send_email` once a port value is
available: connect, starttls, login, sendmail, quit, then the audit
append; any exception is caught and turned into a `False` return plus a
printed diagnostic and an audit line. -/
def connectAndSend (tr : Transport) (recipient : String) (_port : Int) : SendOut :=
  match tr.outcome recipient with
  | none =>
      { ok := true
        diags := []
        audit := [AuditLine.sent recipient]
        network := true
        raised := none }
  | some e =>
      { ok := false
        diags := [Diag.sendError recipient e]
        audit := [AuditLine.failed recipient e]
        network := true
        raised := none }

/-- Embedding of `send_email(recipient_email, subject, body)`.
When any required configuration value is falsy it prints the missing
keys and returns `True` without touching the transport. Otherwise the
port parse and the whole transport sequence run inside `try`, whose
`except` converts any exception into a `False` return, a printed
diagnostic and one audit line; no path raises. -/
def send_email (env : Env) (tr : Transport) (recipient_email subject _body : String) : SendOut :=
  let missing := missingKeys env
  if missing.isEmpty then
    match env.EMAIL_PORT with
    | none => connectAndSend tr recipient_email 587
    | some s =>
        match pyInt? s with
        | none =>
            { ok := false
              diags := [Diag.sendError recipient_email (portError s)]
              audit := [AuditLine.failed recipient_email (portError s)]
              network := false
              raised := none }
        | some p => connectAndSend tr recipient_email p
  else
    { ok := true
      diags := [Diag.missingConfig missing, Diag.wouldHaveSent recipient_email subject]
      audit := []
      network := false
      raised := none }

/-! ## `insert_notification` -/

/-- Observable result of `insert_notification`. -/
structure InsertOut where
  /-- The `Notifications` row inserted and committed, when the insert
  succeeded. -/
  row : Option NotifRow
  /-- Cursor acquire/release events performed by this call. -/
  events : List CEvent
  /-- `some e` when an exception `e` escapes to the caller. -/
  raised : Option String
deriving DecidableEq

/-- Embedding of `insert_notification(user_id, message, notification_type)`.
The function acquires a fresh cursor, executes the `INSERT`, commits and
closes the cursor. It has no `try/except`: a failure of the execute or
commit propagates to the caller, and the cursor is then not closed. -/
def insert_notification (db : Db) (user_id : Nat) (message notification_type : String) : InsertOut :=
  match db.insertRaises user_id with
  | some e =>
      { row := none
        events := [CEvent.acquire CursorId.notif]
        raised := some e }
  | none =>
      { row := some
          { user_id := user_id
            message := message
            ntype := notification_type
            status := STATUSES_SENT }
        events := [CEvent.acquire CursorId.notif, CEvent.release CursorId.notif]
        raised := none }

/-! ## `send_claim_resolved_emails` -/

/-- Accumulated observable state of one orchestrator run. -/
structure St where
  /-- Lines of `crash_debug.log` written by `log_debug`, in order. -/
  trace : List String
  /-- Printed diagnostics, in order. -/
  diags : List Diag
  /-- Lines of the `email_debug.log` audit trail, in order. -/
  audit : List AuditLine
  /-- `Notifications` rows inserted and committed, in order. -/
  rows : List NotifRow
  /-- User ids for which a notification `INSERT` was attempted, in order. -/
  attempts : List Nat
  /-- Cursor acquire/release events, in order. -/
  events : List CEvent
deriving DecidableEq

/-- Embedding of `log_debug(msg)`: append one line to `crash_debug.log`.
Per the debug-logger contract the append never raises. -/
def log_debug (st : St) (msg : String) : St :=
  { st with trace := st.trace ++ [msg] }

/-- Record a printed diagnostic. -/
def printDiag (st : St) (d : Diag) : St :=
  { st with diags := st.diags ++ [d] }

/-- Record a cursor lifecycle event. -/
def cursorEvent (st : St) (e : CEvent) : St :=
  { st with events := st.events ++ [e] }

/-- Record that a notification `INSERT` was attempted for a user. -/
def attemptInsert (st : St) (u : Nat) : St :=
  { st with attempts := st.attempts ++ [u] }

/-- Record a committed `Notifications` row. -/
def commitRow (st : St) (r : NotifRow) : St :=
  { st with rows := st.rows ++ [r] }

/-- Merge the observations of a `get_user_email` call. -/
def mergeLookup (st : St) (g : GetUserOut) : St :=
  { st with diags := st.diags ++ g.diags, events := st.events ++ g.events }

/-- Merge the observations of a `send_email` call. -/
def mergeSend (st : St) (s : SendOut) : St :=
  { st with diags := st.diags ++ s.diags, audit := st.audit ++ s.audit }

/-- How the `try` region of the orchestrator ended, and the terminal
state of the whole run. -/
inductive Terminal where
  /-- The body ran to its last statement. -/
  | completed : Terminal
  /-- Early `return` because the item was not found. -/
  | abortedItem : Terminal
  /-- Early `return` because reporter or claimant data was missing. -/
  | abortedUsers : Terminal
  /-- An exception with this message reached the top-level `except`. -/
  | crashed : String → Terminal
deriving DecidableEq

/-- The fixed message inserted for the reporter's notification row. -/
def reporterNotifMsg : String :=
  "Item successfully matched and resolved. Check your email for details!"

/-- The fixed message inserted for the claimant's notification row. -/
def claimantNotifMsg : String :=
  "Claim approved. Check your email for reporter's contact info."

/-- `f"SUCCESS: Your Item '{item_title}' Has Been RESOLVED!"` -/
def reporterSubject (item_title : String) : String :=
  "SUCCESS: Your Item '" ++ item_title ++ "' Has Been RESOLVED!"

/-- The reporter email body f-string. -/
def reporterBody (reporter_name item_title : String) (admin_id : Nat) (claimant_name : String) : String :=
  "Hello " ++ reporter_name ++ ",\n\nGood news! Your item, '" ++ item_title
    ++ "', has been verified by the Admin (ID: " ++ toString admin_id
    ++ ") and matched with the person who found it. Please contact the claimant, "
    ++ claimant_name
    ++ ", to arrange collection. Your contact details have been shared with them."

/-- `f"SUCCESS: Your Claim on '{item_title}' Has Been APPROVED!"` -/
def claimantSubject (item_title : String) : String :=
  "SUCCESS: Your Claim on '" ++ item_title ++ "' Has Been APPROVED!"

/-- The claimant email body f-string. -/
def claimantBody (claimant_name item_title reporter_name reporter_email : String) : String :=
  "Hello " ++ claimant_name ++ ",\n\nYour claim on '" ++ item_title
    ++ "' has been successfully approved! Please contact the original reporter, "
    ++ reporter_name ++ ", to arrange the return of the item. Their email is "
    ++ reporter_email ++ "."

/-- The guarded inline insert block after a successful send: acquire a
fresh `cursor_notif`, attempt the `INSERT` and commit, close the cursor
and trace success; its own `except` catches an insert failure, prints a
diagnostic and traces it, leaving the cursor unreleased. -/
def notifInsertBlock (w : World) (st : St) (uid : Nat) (msg : String) (traceLabel : String) : St :=
  let st := log_debug st traceLabel
  let st := cursorEvent st (CEvent.acquire CursorId.notif)
  let st := attemptInsert st uid
  match w.db.insertRaises uid with
  | some e =>
      let st := printDiag st (Diag.insertError e)
      log_debug st ("Error inserting notification: " ++ e)
  | none =>
      let st := commitRow st
        { user_id := uid, message := msg, ntype := TYPES_EMAIL, status := STATUSES_SENT }
      let st := cursorEvent st (CEvent.release CursorId.notif)
      log_debug st "Notification inserted."

/-- The `try` region of `send_claim_resolved_emails`: everything from
acquiring the main cursor to the claimant's notification insert.
Returns the accumulated state and how the region ended; an exception
raised by a database execute surfaces as `Terminal.crashed`. -/
def claimBody (w : World) (item_id claimant_id admin_id : Nat) (st : St) : St × Terminal :=
  let st := log_debug st "Getting cursor from thread-local db..."
  let st := cursorEvent st (CEvent.acquire CursorId.main)
  let st := log_debug st "Fetching item info..."
  match w.db.itemQueryRaises with
  | some e => (st, Terminal.crashed e)
  | none =>
    match w.db.items item_id with
    | none =>
        let st := printDiag st (Diag.itemNotFound item_id)
        let st := log_debug st "Item not found."
        let st := cursorEvent st (CEvent.release CursorId.main)
        (st, Terminal.abortedItem)
    | some item_info =>
        let reporter_id := item_info.reported_by
        let item_title := item_info.title
        let st := log_debug st ("Fetching reporter " ++ toString reporter_id ++ "...")
        let r := get_user_email w.db reporter_id true
        let st := mergeLookup st r
        let st := log_debug st ("Fetching claimant " ++ toString claimant_id ++ "...")
        let c := get_user_email w.db claimant_id true
        let st := mergeLookup st c
        let st := log_debug st "Closing cursor..."
        let st := cursorEvent st (CEvent.release CursorId.main)
        match r.result, c.result with
        | some reporter, some claimant =>
            let st := log_debug st "Sending email to reporter..."
            let s1 := send_email w.env w.tr reporter.email
              (reporterSubject item_title)
              (reporterBody reporter.name item_title admin_id claimant.name)
            let st := mergeSend st s1
            let st :=
              if s1.ok then
                notifInsertBlock w st reporter_id reporterNotifMsg
                  "Inserting notification for reporter..."
              else st
            let st := log_debug st "Sending email to claimant..."
            let s2 := send_email w.env w.tr claimant.email
              (claimantSubject item_title)
              (claimantBody claimant.name item_title reporter.name reporter.email)
            let st := mergeSend st s2
            let st :=
              if s2.ok then
                notifInsertBlock w st claimant_id claimantNotifMsg
                  "Inserting notification for claimant..."
              else st
            (st, Terminal.completed)
        | _, _ =>
            let st := printDiag st Diag.missingUserData
            let st := log_debug st "Missing user data."
            (st, Terminal.abortedUsers)

/-- Observable result of one `send_claim_resolved_emails` run. -/
structure RunOut where
  /-- Lines of `crash_debug.log`, in order. -/
  trace : List String
  /-- Printed diagnostics, in order. -/
  diags : List Diag
  /-- Lines of the `email_debug.log` audit trail, in order. -/
  audit : List AuditLine
  /-- `Notifications` rows inserted and committed, in order. -/
  inserts : List NotifRow
  /-- User ids for which a notification `INSERT` was attempted. -/
  attempts : List Nat
  /-- Cursor acquire/release events, in order. -/
  events : List CEvent
  /-- How the run ended. -/
  terminal : Terminal
  /-- Whether the `finally` clause closed the thread-local connection. -/
  connClosed : Bool
deriving DecidableEq

/-- The `except`/`finally` tail of `send_claim_resolved_emails`: an
exception from the body is turned into a printed diagnostic and a
`CRASH:` trace line, and the `finally` closes the thread-local
connection on every path. -/
def finishRun : St × Terminal → RunOut
  | (st, Terminal.crashed e) =>
      { trace := st.trace ++ ["CRASH: " ++ e]
        diags := st.diags ++ [Diag.crashDiag e]
        audit := st.audit
        inserts := st.rows
        attempts := st.attempts
        events := st.events
        terminal := Terminal.crashed e
        connClosed := true }
  | (st, t) =>
      { trace := st.trace
        diags := st.diags
        audit := st.audit
        inserts := st.rows
        attempts := st.attempts
        events := st.events
        terminal := t
        connClosed := true }

/-- Embedding of `send_claim_resolved_emails(item_id, claimant_id, admin_id)`.
The opening `log_debug` runs before the `try`; the body runs inside
`try` and `finishRun` is its `except`/`finally`. The function itself
returns on every path: no exception escapes. -/
def send_claim_resolved_emails (w : World) (item_id claimant_id admin_id : Nat) : RunOut :=
  finishRun (claimBody w item_id claimant_id admin_id
    { trace := ["Starting send_claim_resolved_emails for Item " ++ toString item_id]
      diags := [], audit := [], rows := [], attempts := [], events := [] })

/-! ## Balanced cursor traces -/

/-- The cursor an event concerns. -/
def cidOf : CEvent → CursorId
  | CEvent.acquire c => c
  | CEvent.release c => c

/-- Every cursor touched by the trace is released exactly as often as it
is acquired. -/
def balancedB (evs : List CEvent) : Bool :=
  (evs.map cidOf).all
    (fun c => evs.count (CEvent.acquire c) == evs.count (CEvent.release c))

/-! ## Concrete worlds used to instantiate the theorems -/

/-- An environment with no mail configuration at all. -/
def envUnset : Env :=
  { EMAIL_SENDER := none, EMAIL_HOST := none, EMAIL_PORT := none
    EMAIL_USER := none, EMAIL_PASS := none }

/-- A fully configured environment (port left to its 587 default). -/
def envFull : Env :=
  { EMAIL_SENDER := some "noreply@back2u.example"
    EMAIL_HOST := some "smtp.example.com"
    EMAIL_PORT := none
    EMAIL_USER := some "mailer"
    EMAIL_PASS := some "secret" }

/-- A fully configured environment whose `EMAIL_PORT` does not parse. -/
def envBadPort : Env := { envFull with EMAIL_PORT := some "not-a-number" }

/-- A transport on which every send succeeds. -/
def trOk : Transport := { outcome := fun _ => none }

/-- A transport on which every send raises. -/
def trFail : Transport := { outcome := fun _ => some "connection refused" }

/-- A database with empty tables and no failing operation. -/
def dbEmpty : Db :=
  { items := fun _ => none, users := fun _ => none
    itemQueryRaises := none
    userQueryRaises := fun _ => none
    insertRaises := fun _ => none }

/-- A database on which every notification insert raises. -/
def dbInsertFail : Db := { dbEmpty with insertRaises := fun _ => some "Duplicate entry" }

/-- A world where the `Items` SELECT raises. -/
def wCrash : World :=
  { env := envUnset, db := { dbEmpty with itemQueryRaises := some "boom" }, tr := trOk }

/-- Item 42 reported by user 1 ("Blue Backpack"), users 1 and 2 present,
no database operation failing. -/
def dbScenario : Db :=
  { dbEmpty with
    items := fun i =>
      if i = 42 then some { reported_by := 1, title := "Blue Backpack" } else none
    users := fun u =>
      if u = 1 then some { email := "rep@x", name := "Alice" }
      else if u = 2 then some { email := "clm@x", name := "Bob" } else none }

/-- A transport that raises for the reporter's address and succeeds for
every other recipient. -/
def trScenario : Transport :=
  { outcome := fun r => if r = "rep@x" then some "boom" else none }

/-- The end-to-end scenario world: reporter send raises, claimant send
succeeds, all database operations succeed. -/
def wScenario : World := { env := envFull, db := dbScenario, tr := trScenario }

/-- The scenario database, but the notification insert for user 1 (the
reporter) raises. -/
def dbScenarioInsFail : Db :=
  { dbScenario with
    insertRaises := fun u => if u = 1 then some "Duplicate entry" else none }

/-- A world where both sends succeed but the reporter's notification
insert raises. -/
def wInsFail : World := { env := envFull, db := dbScenarioInsFail, tr := trOk }

/-! ## Helper lemmas about `send_email` -/

/-- With complete configuration and a parsable port, `send_email` is the
guarded transport sequence. -/
theorem send_email_eq_connectAndSend (env : Env) (tr : Transport) (r s b : String) (p : Int)
    (hcfg : missingKeys env = []) (hport : portOf env = some p) :
    send_email env tr r s b = connectAndSend tr r p := by
  unfold send_email
  rw [hcfg]
  simp only [List.isEmpty_nil, if_true]
  unfold portOf at hport
  cases hp : env.EMAIL_PORT with
  | none =>
      rw [hp] at hport
      simp only [Option.some.injEq] at hport
      subst hport
      rfl
  | some s' =>
      rw [hp] at hport
      have hport2 : pyInt? s' = some p := hport
      simp [hport2]

/-- C3: with complete mail configuration, a transport exception is
caught by `send_email`: the result is the failure record with exactly
one audit line carrying the recipient and the error text, one printed
diagnostic, and no escaping exception. -/
theorem send_email_transport_failure_boundary
    (env : Env) (tr : Transport) (recipient subject body : String) (p : Int) (e : String)
    (hcfg : missingKeys env = [])
    (hport : portOf env = some p)
    (hfail : tr.outcome recipient = some e) :
    send_email env tr recipient subject body =
      { ok := false
        diags := [Diag.sendError recipient e]
        audit := [AuditLine.failed recipient e]
        network := true
        raised := none } := by
  rw [send_email_eq_connectAndSend env tr recipient subject body p hcfg hport]
  unfold connectAndSend
  rw [hfail]

/-- Witness for C3 at a concrete environment and failing transport. -/
theorem send_email_transport_failure_boundary_witness :
    missingKeys envFull = [] ∧ portOf envFull = some 587 ∧
      trFail.outcome "who@x" = some "connection refused" ∧
      send_email envFull trFail "who@x" "sub" "body" =
        { ok := false
          diags := [Diag.sendError "who@x" "connection refused"]
          audit := [AuditLine.failed "who@x" "connection refused"]
          network := true
          raised := none } :=
  ⟨by decide, by decide, by decide,
    send_email_transport_failure_boundary envFull trFail "who@x" "sub" "body" 587
      "connection refused" (by decide) (by decide) (by decide)⟩

/-- C4: with any required configuration value missing, `send_email`
returns success, performs no network I/O, and prints the missing keys
(followed by the would-have-sent notice). -/
theorem send_email_unconfigured_vacuous
    (env : Env) (tr : Transport) (recipient subject body : String)
    (h : missingKeys env ≠ []) :
    (send_email env tr recipient subject body).ok = true ∧
    (send_email env tr recipient subject body).network = false ∧
    (send_email env tr recipient subject body).diags =
      [Diag.missingConfig (missingKeys env), Diag.wouldHaveSent recipient subject] := by
  have h2 : (missingKeys env).isEmpty = false := by
    cases hm : missingKeys env with
    | nil => exact absurd hm h
    | cons a l => rfl
  simp [send_email, h2]

/-- Witness for C4 at the fully unset environment. -/
theorem send_email_unconfigured_vacuous_witness :
    missingKeys envUnset ≠ [] ∧
    ((send_email envUnset trOk "who@x" "sub" "body").ok = true ∧
      (send_email envUnset trOk "who@x" "sub" "body").network = false ∧
      (send_email envUnset trOk "who@x" "sub" "body").diags =
        [Diag.missingConfig (missingKeys envUnset), Diag.wouldHaveSent "who@x" "sub"]) :=
  ⟨by decide, send_email_unconfigured_vacuous envUnset trOk "who@x" "sub" "body" (by decide)⟩

/-- C10: with complete configuration but a non-numeric `EMAIL_PORT`,
the port parse fails inside the guarded block: `send_email` returns the
failure record with one audit line carrying the recipient and the parse
error text, and nothing escapes; the transport is never contacted. -/
theorem send_email_bad_port_guarded
    (env : Env) (tr : Transport) (recipient subject body s : String)
    (hcfg : missingKeys env = [])
    (hport : env.EMAIL_PORT = some s)
    (hbad : pyInt? s = none) :
    send_email env tr recipient subject body =
      { ok := false
        diags := [Diag.sendError recipient (portError s)]
        audit := [AuditLine.failed recipient (portError s)]
        network := false
        raised := none } := by
  simp [send_email, hcfg, hport, hbad]

/-- Witness for C10 at a concrete environment with a bad port string. -/
theorem send_email_bad_port_guarded_witness :
    missingKeys envBadPort = [] ∧ envBadPort.EMAIL_PORT = some "not-a-number" ∧
      pyInt? "not-a-number" = none ∧
      send_email envBadPort trOk "who@x" "sub" "body" =
        { ok := false
          diags := [Diag.sendError "who@x" (portError "not-a-number")]
          audit := [AuditLine.failed "who@x" (portError "not-a-number")]
          network := false
          raised := none } :=
  ⟨by decide, by decide, by decide,
    send_email_bad_port_guarded envBadPort trOk "who@x" "sub" "body" "not-a-number"
      (by decide) (by decide) (by decide)⟩

/-- C8: a lookup for an absent user returns `None` with a warning
diagnostic; a failing lookup query likewise returns `None` with a
diagnostic; and on every path no exception escapes `get_user_email`. -/
theorem get_user_email_absent_or_failed_safe
    (db : Db) (user_id : Nat) (borrowedCursor : Bool) :
    (db.userQueryRaises user_id = none → db.users user_id = none →
      (get_user_email db user_id borrowedCursor).result = none ∧
      Diag.userNotFound user_id ∈ (get_user_email db user_id borrowedCursor).diags) ∧
    (∀ e, db.userQueryRaises user_id = some e →
      (get_user_email db user_id borrowedCursor).result = none ∧
      Diag.userFetchError user_id e ∈ (get_user_email db user_id borrowedCursor).diags) ∧
    (get_user_email db user_id borrowedCursor).raised = none := by
  refine ⟨?_, ?_, ?_⟩
  · intro h1 h2
    simp [get_user_email, h1, h2]
  · intro e h1
    simp [get_user_email, h1]
  · cases h1 : db.userQueryRaises user_id with
    | some e => simp [get_user_email, h1]
    | none => cases h2 : db.users user_id <;> simp [get_user_email, h1, h2]

/-- Witness for C8 at the empty database. -/
theorem get_user_email_absent_or_failed_safe_witness :
    (get_user_email dbEmpty 5 false).result = none ∧
    Diag.userNotFound 5 ∈ (get_user_email dbEmpty 5 false).diags :=
  (get_user_email_absent_or_failed_safe dbEmpty 5 false).1 (by decide) (by decide)

/-- C9: with a borrowed cursor `get_user_email` performs no cursor
open or close at all (in particular it never closes the caller's
cursor); with its own cursor it opens it and closes it again on every
path. -/
theorem get_user_email_cursor_discipline (db : Db) (user_id : Nat) :
    (get_user_email db user_id true).events = [] ∧
    (get_user_email db user_id false).events =
      [CEvent.acquire (CursorId.lookupOwn user_id),
        CEvent.release (CursorId.lookupOwn user_id)] := by
  constructor <;>
    · cases h1 : db.userQueryRaises user_id with
      | some e => simp [get_user_email, h1]
      | none => cases h2 : db.users user_id <;> simp [get_user_email, h1, h2]

/-- C5 counterexample: on a database whose insert raises,
`insert_notification` propagates the exception to its caller (and
inserts nothing), contradicting the claim that the operation raises no
exception. -/
theorem insert_notification_raises :
    (insert_notification dbInsertFail 7 reporterNotifMsg TYPES_EMAIL).raised =
      some "Duplicate entry" ∧
    (insert_notification dbInsertFail 7 reporterNotifMsg TYPES_EMAIL).row = none := by
  decide

/-! ## Helper lemmas about the orchestrator -/

/-- The `finally` clause closes the connection whatever the body did. -/
theorem finishRun_connClosed (p : St × Terminal) : (finishRun p).connClosed = true := by
  rcases p with ⟨st, t⟩
  cases t <;> rfl

/-- The run's terminal state is the body's terminal state. -/
theorem finishRun_terminal (p : St × Terminal) : (finishRun p).terminal = p.2 := by
  rcases p with ⟨st, t⟩
  cases t <;> rfl

/-- A lookup through the caller's cursor performs no cursor events. -/
theorem lookup_events_nil (db : Db) (uid : Nat) : (get_user_email db uid true).events = [] := by
  cases h1 : db.userQueryRaises uid with
  | some e => simp [get_user_email, h1]
  | none => cases h2 : db.users uid <;> simp [get_user_email, h1, h2]

/-- When the item query does not raise, no exception reaches the
orchestrator's top-level handler: every other failure is caught further
down. -/
theorem claimBody_no_crash (w : World) (item_id claimant_id admin_id : Nat) (st : St)
    (hitem : w.db.itemQueryRaises = none) (e : String) :
    (claimBody w item_id claimant_id admin_id st).2 ≠ Terminal.crashed e := by
  unfold claimBody
  simp only [hitem]
  repeat' split
  all_goals simp_all

/-- C2: the orchestrator never lets an exception escape: the run value
is defined on every input, the connection is closed, and whenever the
body raised, the handler appended a `CRASH:` line to the trace log and
printed a diagnostic. -/
theorem orchestrator_no_escape
    (w : World) (item_id claimant_id admin_id : Nat) :
    (send_claim_resolved_emails w item_id claimant_id admin_id).connClosed = true ∧
    (∀ e,
      (send_claim_resolved_emails w item_id claimant_id admin_id).terminal = Terminal.crashed e →
      ("CRASH: " ++ e) ∈ (send_claim_resolved_emails w item_id claimant_id admin_id).trace ∧
      Diag.crashDiag e ∈ (send_claim_resolved_emails w item_id claimant_id admin_id).diags) := by
  unfold send_claim_resolved_emails
  constructor
  · exact finishRun_connClosed _
  · intro e
    rcases hp : claimBody w item_id claimant_id admin_id
        { trace := ["Starting send_claim_resolved_emails for Item " ++ toString item_id]
          diags := [], audit := [], rows := [], attempts := [], events := [] } with ⟨st, t⟩
    cases t with
    | completed => simp [finishRun]
    | abortedItem => simp [finishRun]
    | abortedUsers => simp [finishRun]
    | crashed e2 =>
        intro ht
        have he : e2 = e := by simpa [finishRun] using ht
        subst he
        simp [finishRun]

/-- Witness for C2: a world whose item query raises `boom` yields a run
with the `CRASH:` trace line and the crash diagnostic. -/
theorem orchestrator_no_escape_witness :
    ("CRASH: " ++ "boom") ∈ (send_claim_resolved_emails wCrash 1 2 3).trace ∧
    Diag.crashDiag "boom" ∈ (send_claim_resolved_emails wCrash 1 2 3).diags :=
  (orchestrator_no_escape wCrash 1 2 3).2 "boom" (by decide)

/-- A transport failure reduces `send_email` to the failure record
(shared helper). -/
theorem send_email_transport_fail_eq (env : Env) (tr : Transport) (r s b : String) (p : Int) (e : String)
    (hcfg : missingKeys env = [])
    (hport : portOf env = some p)
    (hfail : tr.outcome r = some e) :
    send_email env tr r s b =
      { ok := false
        diags := [Diag.sendError r e]
        audit := [AuditLine.failed r e]
        network := true
        raised := none } := by
  rw [send_email_eq_connectAndSend env tr r s b p hcfg hport]
  unfold connectAndSend
  rw [hfail]

/-- A transport success reduces `send_email` to the success record
(shared helper). -/
theorem send_email_transport_ok_eq (env : Env) (tr : Transport) (r s b : String) (p : Int)
    (hcfg : missingKeys env = [])
    (hport : portOf env = some p)
    (hok : tr.outcome r = none) :
    send_email env tr r s b =
      { ok := true
        diags := []
        audit := [AuditLine.sent r]
        network := true
        raised := none } := by
  rw [send_email_eq_connectAndSend env tr r s b p hcfg hport]
  unfold connectAndSend
  rw [hok]

/-- A found user reduces `get_user_email` through a borrowed cursor to
the plain row result (shared helper). -/
theorem lookup_found (db : Db) (uid : Nat) (u : UserRow)
    (h1 : db.userQueryRaises uid = none) (h2 : db.users uid = some u) :
    get_user_email db uid true =
      { result := some u, diags := [], events := [], raised := none } := by
  simp [get_user_email, h1, h2]

/-- Reduction of the whole run when the item and both users are found:
the run completes, its audit trail is the concatenation of the two
send audits, an insert is attempted for each user exactly when that
user's send succeeded, a row is committed when additionally the insert
did not raise, and the cursor events are the main pair plus the insert
cursors (shared helper). -/
theorem run_happy (w : World) (item_id claimant_id admin_id : Nat)
    (item : ItemRow) (rep clm : UserRow)
    (hitem : w.db.itemQueryRaises = none)
    (hfound : w.db.items item_id = some item)
    (hr : w.db.userQueryRaises item.reported_by = none)
    (hru : w.db.users item.reported_by = some rep)
    (hc : w.db.userQueryRaises claimant_id = none)
    (hcu : w.db.users claimant_id = some clm) :
    (send_claim_resolved_emails w item_id claimant_id admin_id).terminal = Terminal.completed ∧
    (send_claim_resolved_emails w item_id claimant_id admin_id).audit =
      (send_email w.env w.tr rep.email (reporterSubject item.title)
        (reporterBody rep.name item.title admin_id clm.name)).audit ++
      (send_email w.env w.tr clm.email (claimantSubject item.title)
        (claimantBody clm.name item.title rep.name rep.email)).audit ∧
    (send_claim_resolved_emails w item_id claimant_id admin_id).attempts =
      (if (send_email w.env w.tr rep.email (reporterSubject item.title)
            (reporterBody rep.name item.title admin_id clm.name)).ok
        then [item.reported_by] else []) ++
      (if (send_email w.env w.tr clm.email (claimantSubject item.title)
            (claimantBody clm.name item.title rep.name rep.email)).ok
        then [claimant_id] else []) ∧
    (send_claim_resolved_emails w item_id claimant_id admin_id).inserts =
      (if (send_email w.env w.tr rep.email (reporterSubject item.title)
            (reporterBody rep.name item.title admin_id clm.name)).ok
        then
          (match w.db.insertRaises item.reported_by with
            | some _ => []
            | none => [{ user_id := item.reported_by, message := reporterNotifMsg
                         ntype := TYPES_EMAIL, status := STATUSES_SENT }])
        else []) ++
      (if (send_email w.env w.tr clm.email (claimantSubject item.title)
            (claimantBody clm.name item.title rep.name rep.email)).ok
        then
          (match w.db.insertRaises claimant_id with
            | some _ => []
            | none => [{ user_id := claimant_id, message := claimantNotifMsg
                         ntype := TYPES_EMAIL, status := STATUSES_SENT }])
        else []) ∧
    (send_claim_resolved_emails w item_id claimant_id admin_id).events =
      [CEvent.acquire CursorId.main, CEvent.release CursorId.main] ++
      (if (send_email w.env w.tr rep.email (reporterSubject item.title)
            (reporterBody rep.name item.title admin_id clm.name)).ok
        then
          (match w.db.insertRaises item.reported_by with
            | some _ => [CEvent.acquire CursorId.notif]
            | none => [CEvent.acquire CursorId.notif, CEvent.release CursorId.notif])
        else []) ++
      (if (send_email w.env w.tr clm.email (claimantSubject item.title)
            (claimantBody clm.name item.title rep.name rep.email)).ok
        then
          (match w.db.insertRaises claimant_id with
            | some _ => [CEvent.acquire CursorId.notif]
            | none => [CEvent.acquire CursorId.notif, CEvent.release CursorId.notif])
        else []) := by
  have hgr := lookup_found w.db item.reported_by rep hr hru
  have hgc := lookup_found w.db claimant_id clm hc hcu
  by_cases h1 : (send_email w.env w.tr rep.email (reporterSubject item.title)
      (reporterBody rep.name item.title admin_id clm.name)).ok <;>
    by_cases h2 : (send_email w.env w.tr clm.email (claimantSubject item.title)
        (claimantBody clm.name item.title rep.name rep.email)).ok <;>
    cases hi1 : w.db.insertRaises item.reported_by <;>
    cases hi2 : w.db.insertRaises claimant_id <;>
    simp [send_claim_resolved_emails, claimBody, finishRun, notifInsertBlock,
      log_debug, printDiag, cursorEvent, attemptInsert, commitRow, mergeLookup, mergeSend,
      hitem, hfound, hgr, hgc, hi1, hi2, h1, h2]

/-- C1: with the item and both (distinct) users found, a notification
insert is attempted for a user exactly when the send to that user's
email returned success — one attempt on success, none on failure — and
every committed row has type EMAIL and belongs to a user whose send
returned success. -/
theorem notification_insert_iff_send_success
    (w : World) (item_id claimant_id admin_id : Nat)
    (item : ItemRow) (rep clm : UserRow)
    (hitem : w.db.itemQueryRaises = none)
    (hfound : w.db.items item_id = some item)
    (hr : w.db.userQueryRaises item.reported_by = none)
    (hru : w.db.users item.reported_by = some rep)
    (hc : w.db.userQueryRaises claimant_id = none)
    (hcu : w.db.users claimant_id = some clm)
    (hne : item.reported_by ≠ claimant_id) :
    ((send_claim_resolved_emails w item_id claimant_id admin_id).attempts.count item.reported_by
        = if (send_email w.env w.tr rep.email (reporterSubject item.title)
              (reporterBody rep.name item.title admin_id clm.name)).ok then 1 else 0) ∧
    ((send_claim_resolved_emails w item_id claimant_id admin_id).attempts.count claimant_id
        = if (send_email w.env w.tr clm.email (claimantSubject item.title)
              (claimantBody clm.name item.title rep.name rep.email)).ok then 1 else 0) ∧
    (∀ row ∈ (send_claim_resolved_emails w item_id claimant_id admin_id).inserts,
      row.ntype = TYPES_EMAIL ∧
      (row.user_id = item.reported_by →
        (send_email w.env w.tr rep.email (reporterSubject item.title)
          (reporterBody rep.name item.title admin_id clm.name)).ok = true) ∧
      (row.user_id = claimant_id →
        (send_email w.env w.tr clm.email (claimantSubject item.title)
          (claimantBody clm.name item.title rep.name rep.email)).ok = true)) := by
  obtain ⟨hterm, haud, hatt, hinsEq, hev⟩ :=
    run_happy w item_id claimant_id admin_id item rep clm hitem hfound hr hru hc hcu
  refine ⟨?_, ?_, ?_⟩
  · rw [hatt]
    by_cases h1 : (send_email w.env w.tr rep.email (reporterSubject item.title)
        (reporterBody rep.name item.title admin_id clm.name)).ok <;>
      by_cases h2 : (send_email w.env w.tr clm.email (claimantSubject item.title)
          (claimantBody clm.name item.title rep.name rep.email)).ok <;>
      simp [h1, h2, List.count_append, List.count_cons, List.count_nil, hne, Ne.symm hne]
  · rw [hatt]
    by_cases h1 : (send_email w.env w.tr rep.email (reporterSubject item.title)
        (reporterBody rep.name item.title admin_id clm.name)).ok <;>
      by_cases h2 : (send_email w.env w.tr clm.email (claimantSubject item.title)
          (claimantBody clm.name item.title rep.name rep.email)).ok <;>
      simp [h1, h2, List.count_append, List.count_cons, List.count_nil, hne, Ne.symm hne]
  · rw [hinsEq]
    by_cases h1 : (send_email w.env w.tr rep.email (reporterSubject item.title)
        (reporterBody rep.name item.title admin_id clm.name)).ok <;>
      by_cases h2 : (send_email w.env w.tr clm.email (claimantSubject item.title)
          (claimantBody clm.name item.title rep.name rep.email)).ok
    all_goals cases hi1 : w.db.insertRaises item.reported_by
    all_goals cases hi2 : w.db.insertRaises claimant_id
    all_goals intro row hrow
    all_goals simp [h1, h2, hi1, hi2] at hrow
    all_goals try rcases hrow with rfl | rfl
    all_goals simp [h1, h2, hne, Ne.symm hne, TYPES_EMAIL]

/-- Witness for C1 at the concrete scenario world. -/
theorem notification_insert_iff_send_success_witness :
    ((send_claim_resolved_emails wScenario 42 2 9).attempts.count 1
        = if (send_email wScenario.env wScenario.tr "rep@x" (reporterSubject "Blue Backpack")
              (reporterBody "Alice" "Blue Backpack" 9 "Bob")).ok then 1 else 0) ∧
    ((send_claim_resolved_emails wScenario 42 2 9).attempts.count 2
        = if (send_email wScenario.env wScenario.tr "clm@x" (claimantSubject "Blue Backpack")
              (claimantBody "Bob" "Blue Backpack" "Alice" "rep@x")).ok then 1 else 0) ∧
    (∀ row ∈ (send_claim_resolved_emails wScenario 42 2 9).inserts,
      row.ntype = TYPES_EMAIL ∧
      (row.user_id = 1 →
        (send_email wScenario.env wScenario.tr "rep@x" (reporterSubject "Blue Backpack")
          (reporterBody "Alice" "Blue Backpack" 9 "Bob")).ok = true) ∧
      (row.user_id = 2 →
        (send_email wScenario.env wScenario.tr "clm@x" (claimantSubject "Blue Backpack")
          (claimantBody "Bob" "Blue Backpack" "Alice" "rep@x")).ok = true)) :=
  notification_insert_iff_send_success wScenario 42 2 9
    { reported_by := 1, title := "Blue Backpack" }
    { email := "rep@x", name := "Alice" }
    { email := "clm@x", name := "Bob" }
    (by decide) (by decide) (by decide) (by decide) (by decide) (by decide) (by decide)

/-- C6: when the item and both users are found, the reporter's send
raises and the claimant's send succeeds, the claimant email is still
attempted: exactly one Notification row is committed (the claimant's),
the audit trail is exactly one failure line then one success line, and
the run reaches its normal end. -/
theorem reporter_fail_claimant_succeeds
    (w : World) (item_id claimant_id admin_id : Nat)
    (item : ItemRow) (rep clm : UserRow) (p : Int) (e : String)
    (hitem : w.db.itemQueryRaises = none)
    (hfound : w.db.items item_id = some item)
    (hr : w.db.userQueryRaises item.reported_by = none)
    (hru : w.db.users item.reported_by = some rep)
    (hc : w.db.userQueryRaises claimant_id = none)
    (hcu : w.db.users claimant_id = some clm)
    (hcfg : missingKeys w.env = [])
    (hport : portOf w.env = some p)
    (hfail : w.tr.outcome rep.email = some e)
    (hok : w.tr.outcome clm.email = none)
    (hinsC : w.db.insertRaises claimant_id = none) :
    (send_claim_resolved_emails w item_id claimant_id admin_id).inserts =
      [{ user_id := claimant_id, message := claimantNotifMsg
         ntype := TYPES_EMAIL, status := STATUSES_SENT }] ∧
    (send_claim_resolved_emails w item_id claimant_id admin_id).audit =
      [AuditLine.failed rep.email e, AuditLine.sent clm.email] ∧
    (send_claim_resolved_emails w item_id claimant_id admin_id).terminal =
      Terminal.completed := by
  obtain ⟨hterm, haud, hatt, hinsEq, hev⟩ :=
    run_happy w item_id claimant_id admin_id item rep clm hitem hfound hr hru hc hcu
  have hs1 := send_email_transport_fail_eq w.env w.tr rep.email (reporterSubject item.title)
    (reporterBody rep.name item.title admin_id clm.name) p e hcfg hport hfail
  have hs2 := send_email_transport_ok_eq w.env w.tr clm.email (claimantSubject item.title)
    (claimantBody clm.name item.title rep.name rep.email) p hcfg hport hok
  refine ⟨?_, ?_, hterm⟩
  · rw [hinsEq, hs1, hs2]
    simp [hinsC]
  · rw [haud, hs1, hs2]
    rfl

/-- Witness for C6 at the concrete scenario world. -/
theorem reporter_fail_claimant_succeeds_witness :
    (send_claim_resolved_emails wScenario 42 2 9).inserts =
      [{ user_id := 2, message := claimantNotifMsg
         ntype := TYPES_EMAIL, status := STATUSES_SENT }] ∧
    (send_claim_resolved_emails wScenario 42 2 9).audit =
      [AuditLine.failed "rep@x" "boom", AuditLine.sent "clm@x"] ∧
    (send_claim_resolved_emails wScenario 42 2 9).terminal = Terminal.completed :=
  reporter_fail_claimant_succeeds wScenario 42 2 9
    { reported_by := 1, title := "Blue Backpack" }
    { email := "rep@x", name := "Alice" }
    { email := "clm@x", name := "Bob" } 587 "boom"
    (by decide) (by decide) (by decide) (by decide) (by decide) (by decide)
    (by decide) (by decide) (by decide) (by decide) (by decide)

/-- C5 (amended): `insert_notification` inserts exactly one row and
commits on success without raising, but a failing insert propagates the
exception to its caller; in the claim-resolution workflow the inline
insert blocks catch such failures: once the item query succeeds no
exception ever reaches the orchestrator's top-level handler, and when a
send succeeded but the inline insert raises, the failure is reported as
an `Error inserting notification` diagnostic and the run still reaches
its normal end. -/
theorem insert_notification_amended
    (db : Db) (user_id : Nat) (message notification_type : String)
    (w : World) (item_id claimant_id admin_id : Nat) :
    (db.insertRaises user_id = none →
      insert_notification db user_id message notification_type =
        { row := some { user_id := user_id, message := message
                        ntype := notification_type, status := STATUSES_SENT }
          events := [CEvent.acquire CursorId.notif, CEvent.release CursorId.notif]
          raised := none }) ∧
    (∀ e, db.insertRaises user_id = some e →
      (insert_notification db user_id message notification_type).raised = some e) ∧
    (w.db.itemQueryRaises = none →
      ∀ e, (send_claim_resolved_emails w item_id claimant_id admin_id).terminal ≠
        Terminal.crashed e) ∧
    (∀ (item : ItemRow) (rep clm : UserRow) (e : String),
      w.db.itemQueryRaises = none →
      w.db.items item_id = some item →
      w.db.userQueryRaises item.reported_by = none →
      w.db.users item.reported_by = some rep →
      w.db.userQueryRaises claimant_id = none →
      w.db.users claimant_id = some clm →
      (send_email w.env w.tr rep.email (reporterSubject item.title)
        (reporterBody rep.name item.title admin_id clm.name)).ok = true →
      w.db.insertRaises item.reported_by = some e →
      Diag.insertError e ∈ (send_claim_resolved_emails w item_id claimant_id admin_id).diags ∧
      (send_claim_resolved_emails w item_id claimant_id admin_id).terminal =
        Terminal.completed) := by
  refine ⟨?_, ?_, ?_, ?_⟩
  · intro h
    simp [insert_notification, h]
  · intro e h
    simp [insert_notification, h]
  · intro hitem e
    unfold send_claim_resolved_emails
    rw [finishRun_terminal]
    exact claimBody_no_crash w item_id claimant_id admin_id _ hitem e
  · intro item rep clm e hitem hfound hr hru hc hcu hok hins1
    have hgr := lookup_found w.db item.reported_by rep hr hru
    have hgc := lookup_found w.db claimant_id clm hc hcu
    by_cases h2 : (send_email w.env w.tr clm.email (claimantSubject item.title)
        (claimantBody clm.name item.title rep.name rep.email)).ok <;>
      cases hi2 : w.db.insertRaises claimant_id <;>
      simp [send_claim_resolved_emails, claimBody, finishRun, notifInsertBlock, log_debug,
        printDiag, cursorEvent, attemptInsert, commitRow, mergeLookup, mergeSend,
        hitem, hfound, hgr, hgc, hins1, hok, h2, hi2]

/-- Witness for the amended C5: a succeeding insert commits one row; a
run whose item query succeeds never reaches the crash handler; and in a
world whose reporter insert raises after a successful send, the run
records the insert-error diagnostic and still completes. -/
theorem insert_notification_amended_witness :
    insert_notification dbEmpty 7 "m" "EMAIL" =
      { row := some { user_id := 7, message := "m", ntype := "EMAIL", status := STATUSES_SENT }
        events := [CEvent.acquire CursorId.notif, CEvent.release CursorId.notif]
        raised := none } ∧
    (send_claim_resolved_emails wScenario 42 2 9).terminal ≠ Terminal.crashed "boom" ∧
    Diag.insertError "Duplicate entry" ∈ (send_claim_resolved_emails wInsFail 42 2 9).diags ∧
    (send_claim_resolved_emails wInsFail 42 2 9).terminal = Terminal.completed :=
  ⟨(insert_notification_amended dbEmpty 7 "m" "EMAIL" wScenario 42 2 9).1 (by decide),
    (insert_notification_amended dbEmpty 7 "m" "EMAIL" wScenario 42 2 9).2.2.1 (by decide) "boom",
    (insert_notification_amended dbEmpty 7 "m" "EMAIL" wInsFail 42 2 9).2.2.2
      { reported_by := 1, title := "Blue Backpack" }
      { email := "rep@x", name := "Alice" }
      { email := "clm@x", name := "Bob" } "Duplicate entry"
      (by decide) (by decide) (by decide) (by decide) (by decide) (by decide)
      (by decide) (by decide)⟩

/-- C7 counterexample: when the item query raises, the main cursor is
acquired but never released (its `close()` is skipped by the exception),
even though the `finally` clause still closes the connection — so not
every acquired query context is released. -/
theorem cursor_leaked_on_exception :
    CEvent.acquire CursorId.main ∈ (send_claim_resolved_emails wCrash 1 2 3).events ∧
    CEvent.release CursorId.main ∉ (send_claim_resolved_emails wCrash 1 2 3).events ∧
    (send_claim_resolved_emails wCrash 1 2 3).connClosed = true := by
  decide

/-- C7 (amended): the `finally` clause closes the thread-local
connection on every exit path; and on runs where no database operation
raises, every acquired cursor is also released. (On exception paths the
cursor active at the raise is not individually released.) -/
theorem conn_always_closed_no_leak_without_raise
    (w : World) (item_id claimant_id admin_id : Nat)
    (hitem : w.db.itemQueryRaises = none)
    (hins : ∀ u, w.db.insertRaises u = none) :
    (send_claim_resolved_emails w item_id claimant_id admin_id).connClosed = true ∧
    balancedB (send_claim_resolved_emails w item_id claimant_id admin_id).events = true := by
  refine ⟨finishRun_connClosed _, ?_⟩
  rcases hf : w.db.items item_id with _ | item
  · simp only [send_claim_resolved_emails, claimBody, finishRun, log_debug, printDiag,
      cursorEvent, mergeLookup, mergeSend, hitem, hf]
    decide
  · rcases hres : (get_user_email w.db item.reported_by true).result with _ | rep
    · simp only [send_claim_resolved_emails, claimBody, finishRun, log_debug, printDiag,
        cursorEvent, mergeLookup, mergeSend, hitem, hf, hres, lookup_events_nil]
      decide
    · rcases hcres : (get_user_email w.db claimant_id true).result with _ | clm
      · simp only [send_claim_resolved_emails, claimBody, finishRun, log_debug, printDiag,
          cursorEvent, mergeLookup, mergeSend, hitem, hf, hres, hcres, lookup_events_nil]
        decide
      · by_cases hs1 : (send_email w.env w.tr rep.email (reporterSubject item.title)
            (reporterBody rep.name item.title admin_id clm.name)).ok <;>
          by_cases hs2 : (send_email w.env w.tr clm.email (claimantSubject item.title)
              (claimantBody clm.name item.title rep.name rep.email)).ok <;>
          simp [send_claim_resolved_emails, claimBody, finishRun, notifInsertBlock,
            log_debug, printDiag, cursorEvent, attemptInsert, commitRow, mergeLookup,
            mergeSend, hitem, hf, hres, hcres, hins, hs1, hs2, lookup_events_nil] <;>
          try rfl

/-- Witness for the amended C7 at the concrete scenario world. -/
theorem conn_always_closed_no_leak_without_raise_witness :
    (send_claim_resolved_emails wScenario 42 2 9).connClosed = true ∧
    balancedB (send_claim_resolved_emails wScenario 42 2 9).events = true :=
  conn_always_closed_no_leak_without_raise wScenario 42 2 9 (by decide) (fun u => rfl)
